import Mathlib

/-!
Verification development for the advanced-research-assistant repository.

The Python sources under `src/` are shallowly embedded: pure string and
arithmetic heuristics become Lean functions over `List Char` / `String` and
`ℚ` (Python floats are modelled as exact rationals), mutable per-instance
dictionaries become insertion-ordered association lists with Python dict
update semantics, and the workflow method with exception handling becomes a
function whose fallible collaborators (task construction, crew kickoff,
summary-file write) are supplied as explicit outcome parameters.  The md5
digests used for ids are modelled as injective functions of their preimage
strings, so an id is represented by the exact string the source feeds to
`hashlib.md5`.
-/

/-! ## Python string primitives -/

/-- Python whitespace as used by `str.strip` and `str.split`. -/
def isPySpace (c : Char) : Bool :=
  c == ' ' || c == '\t' || c == '\n' || c == '\r' || c == '\x0b' || c == '\x0c'

/-- ASCII lowercasing of one character, as Python `str.lower` acts on ASCII. -/
def lowerChar (c : Char) : Char :=
  if 'A' ≤ c && c ≤ 'Z' then Char.ofNat (c.toNat + 32) else c

/-- Lowercase a character list. -/
def lowerL (l : List Char) : List Char := l.map lowerChar

/-- Lowercase a string (ASCII, matching the regex IGNORECASE uses in the source). -/
def pyLower (s : String) : String := String.mk (lowerL s.data)

/-- ASCII uppercasing of one character, as Python `str.upper` acts on ASCII. -/
def upperChar (c : Char) : Char :=
  if 'a' ≤ c && c ≤ 'z' then Char.ofNat (c.toNat - 32) else c

/-- Uppercase a string. -/
def pyUpper (s : String) : String := String.mk (s.data.map upperChar)

/-- Python `str.strip()`: drop leading and trailing whitespace. -/
def pyStrip (s : String) : String :=
  String.mk (((s.data.dropWhile isPySpace).reverse.dropWhile isPySpace).reverse)

/-- Python slicing `s[:n]` on a string (character based). -/
def pyTake (n : Nat) (s : String) : String := String.mk (s.data.take n)

/-- Substring containment on character lists (Python `in`, `re.search` of a literal). -/
def containsSub (needle : List Char) : List Char → Bool
  | [] => needle.isEmpty
  | c :: t => needle.isPrefixOf (c :: t) || containsSub needle t

/-- `strContains hay needle`: the needle occurs somewhere in the hay. -/
def strContains (hay needle : String) : Bool := containsSub needle.data hay.data

/-- Case-insensitive containment, modelling `re.search(literal, s, re.IGNORECASE)`. -/
def strContainsCI (hay needle : String) : Bool :=
  containsSub (lowerL needle.data) (lowerL hay.data)

/-- Number of non-overlapping occurrences of a literal, leftmost first,
modelling `len(re.findall(literal, s))`. -/
def countSub (needle : List Char) : List Char → Nat
  | [] => 0
  | c :: t =>
    if needle.isPrefixOf (c :: t) then 1 + countSub needle (t.drop (needle.length - 1))
    else countSub needle t
termination_by l => l.length
decreasing_by
  · simp only [List.length_cons, List.length_drop]
    omega
  · simp only [List.length_cons]
    omega

/-- Count of maximal non-whitespace runs: `len(s.split())` in Python.
The boolean argument records whether the previous character was part of a word. -/
def splitCount : Bool → List Char → Nat
  | _, [] => 0
  | inWord, c :: t =>
    if isPySpace c then splitCount false t
    else if inWord then splitCount true t
    else 1 + splitCount true t

/-- `len(content.split())` as used throughout the quality assessor. -/
def pyWordCount (s : String) : Nat := splitCount false s.data

/-- Python regex word characters (`\w` on ASCII input). -/
def isWordChar (c : Char) : Bool := c.isAlphanum || c == '_'

/-- Maximal runs of word characters, in order.  The accumulator holds the
current run reversed. -/
def wordRuns : List Char → List Char → List (List Char)
  | acc, [] => if acc.isEmpty then [] else [acc.reverse]
  | acc, c :: t =>
    if isWordChar c then wordRuns (c :: acc) t
    else if acc.isEmpty then wordRuns [] t
    else acc.reverse :: wordRuns [] t

/-- Numeric value of an ASCII digit. -/
def digitVal (c : Char) : Nat := c.toNat - 48

/-- A word run matches `\b20\d{2}\b` exactly when it is the four characters
`2`, `0`, digit, digit; both regex anchors force the run to be maximal. -/
def yearOfRun : List Char → Option Nat
  | ['2', '0', a, b] =>
    if a.isDigit && b.isDigit then some (2000 + 10 * digitVal a + digitVal b) else none
  | _ => none

/-- All matches of `re.findall(r'\b(20\d{2})\b', s)` as numbers. -/
def findYears (s : String) : List Nat := (wordRuns [] s.data).filterMap yearOfRun

/-- Maximum of a list of naturals, `none` on the empty list
(the source guards with `if dates_found:`). -/
def listMaxNat : List Nat → Option Nat
  | [] => none
  | y :: t => some (t.foldl Nat.max y)

/-- `re.search(r'\d+%', s)` succeeds exactly when some digit is immediately
followed by a percent sign. -/
def hasDigitPercent : List Char → Bool
  | a :: b :: t => (a.isDigit && b == '%') || hasDigitPercent (b :: t)
  | _ => false

/-- `re.search(r'\d+\.\d+', s)` succeeds exactly when a digit, a dot and a
digit occur consecutively. -/
def hasDigitDotDigit : List Char → Bool
  | a :: b :: c :: t => (a.isDigit && b == '.' && c.isDigit) || hasDigitDotDigit (b :: c :: t)
  | _ => false

/-- Does `peer.?reviewed` match at the head of the list?  The optional `.`
matches any character except a newline. -/
def peerReviewedAt (l : List Char) : Bool :=
  "peer".data.isPrefixOf l &&
    ("reviewed".data.isPrefixOf (l.drop 4) ||
      (match l.drop 4 with
       | c :: rest => c != '\n' && "reviewed".data.isPrefixOf rest
       | [] => false))

/-- `re.search(r'peer.?reviewed', s)`: a match starting at any position. -/
def hasPeerReviewed : List Char → Bool
  | [] => false
  | c :: t => peerReviewedAt (c :: t) || hasPeerReviewed t

/-- Counting automaton for `re.findall(r'\[\d+\]', s)`: state 0 is outside a
candidate, state 1 has just seen `[`, state 2 has seen `[` and at least one
digit.  Matches are non-overlapping and leftmost, as in the regex engine. -/
def countBracketNumAux : Nat → List Char → Nat
  | _, [] => 0
  | st, c :: t =>
    if c == '[' then countBracketNumAux 1 t
    else if st == 2 && c == ']' then 1 + countBracketNumAux 0 t
    else if (st == 1 || st == 2) && c.isDigit then countBracketNumAux 2 t
    else countBracketNumAux 0 t

/-- Counting automaton for `re.findall(r'\(\d{4}\)', s)`: the state holds the
number of digits seen since the last `(`, or `none` when no candidate is open. -/
def countParenYearAux : Option Nat → List Char → Nat
  | _, [] => 0
  | st, c :: t =>
    if c == '(' then countParenYearAux (some 0) t
    else
      match st with
      | some k =>
        if c.isDigit then
          if k < 4 then countParenYearAux (some (k + 1)) t else countParenYearAux none t
        else if k == 4 && c == ')' then 1 + countParenYearAux none t
        else countParenYearAux none t
      | none => countParenYearAux none t

/-- How many of the given lowercase literal patterns occur at least once in the
(lowercased) content: the source adds a fixed bonus once per pattern for which
`re.search` succeeds. -/
def countPresent (pats : List String) (low : List Char) : Nat :=
  (pats.filter (fun p => containsSub p.data low)).length

/-- Python dict lookup on an insertion-ordered association list. -/
def pyDictLookup {α : Type} (k : String) : List (String × α) → Option α
  | [] => none
  | p :: t => if p.1 = k then some p.2 else pyDictLookup k t

/-- Python dict assignment `m[k] = v`: update in place when the key exists
(keeping its position), otherwise append at the end. -/
def pyDictInsert {α : Type} (k : String) (v : α) (m : List (String × α)) :
    List (String × α) :=
  if k ∈ m.map Prod.fst then m.map (fun p => if p.1 = k then (k, v) else p)
  else m ++ [(k, v)]

/-- A single ASCII quote character, used to render Python `repr` of strings. -/
def pyQuote : String := String.mk [Char.ofNat 39]

/-- Python `str(list_of_strings)`, e.g. a list repr with quoted elements. -/
def pyReprStrList (l : List String) : String :=
  "[" ++ String.intercalate ", " (l.map (fun s => pyQuote ++ s ++ pyQuote)) ++ "]"

/-! ## Citation manager (`src/tools/citation_manager.py`) -/

/-- The `CitationData` pydantic model.  Optional fields are `Option String`
with `none` for Python `None`. -/
structure CitationData where
  title : String
  authors : List String
  url : String
  date_accessed : String
  source_type : String
  publication_date : Option String
  publisher : Option String
  doi : Option String
  citation_id : String
deriving DecidableEq

/-- Python truthiness of an optional string (`if citation.publisher:`). -/
def pyTruthy (o : Option String) : Bool :=
  match o with
  | some s => s != ""
  | none => false

/-- Python `a or b` for an optional string `a` and string `b`
(`citation.publication_date or citation.date_accessed`). -/
def pyOrOpt (o : Option String) (d : String) : String :=
  match o with
  | some s => if s = "" then d else s
  | none => d

/-- Last element of a nonempty string list, with a default for the empty case
(`citation.authors[-1]`; by construction only used on lists of length ≥ 3). -/
def lastStr (d : String) : List String → String
  | [] => d
  | [a] => a
  | _ :: t => lastStr d t

/-- The APA author rendering of `_format_apa`: one author verbatim, two joined
by an ampersand, three or more comma-joined with an ampersand before the last,
and a fixed fallback when the list is empty. -/
def apaAuthors : List String → String
  | [] => "Unknown Author"
  | [a] => a
  | [a, b] => a ++ " & " ++ b
  | l => String.intercalate ", " l.dropLast ++ ", & " ++ lastStr "" l

/-- The optional trailing URL clause of `_format_apa`. -/
def apaUrlPart (c : CitationData) : String :=
  if c.url ≠ "" ∧ c.url ≠ "No URL provided" then "Retrieved from " ++ c.url else ""

/-- Everything `_format_apa` emits before the URL clause. -/
def apaBase (c : CitationData) : String :=
  apaAuthors c.authors ++ ". (" ++ pyOrOpt c.publication_date c.date_accessed ++ "). "
    ++ c.title ++ ". "
    ++ (if pyTruthy c.publisher then c.publisher.getD "" ++ ". " else "")

/-- `CitationManager._format_apa`. -/
def format_apa (c : CitationData) : String := apaBase c ++ apaUrlPart c

/-- The MLA author rendering of `_format_mla`. -/
def mlaAuthors : List String → String
  | [] => "Unknown Author"
  | [a] => a
  | a :: _ => a ++ " et al."

/-- The optional trailing URL clause of `_format_mla`. -/
def mlaUrlPart (c : CitationData) : String :=
  if c.url ≠ "" ∧ c.url ≠ "No URL provided" then " <" ++ c.url ++ ">." else ""

/-- Everything `_format_mla` emits before the URL clause. -/
def mlaBase (c : CitationData) : String :=
  mlaAuthors c.authors ++ ". \"" ++ c.title ++ ".\" Web. " ++ c.date_accessed ++ "."

/-- `CitationManager._format_mla`. -/
def format_mla (c : CitationData) : String := mlaBase c ++ mlaUrlPart c

/-- The Chicago author rendering of `_format_chicago`. -/
def chicagoAuthors : List String → String
  | [] => "Unknown Author"
  | a :: _ => a

/-- The optional trailing URL clause of `_format_chicago`. -/
def chicagoUrlPart (c : CitationData) : String :=
  if c.url ≠ "" ∧ c.url ≠ "No URL provided" then " " ++ c.url ++ "." else ""

/-- Everything `_format_chicago` emits before the URL clause. -/
def chicagoBase (c : CitationData) : String :=
  chicagoAuthors c.authors ++ ". \"" ++ c.title ++ ".\" Accessed " ++ c.date_accessed ++ "."

/-- `CitationManager._format_chicago`. -/
def format_chicago (c : CitationData) : String := chicagoBase c ++ chicagoUrlPart c

/-- The optional keyword arguments accepted by the `add` action. -/
structure CitationKwargs where
  source_type : Option String
  publication_date : Option String
  publisher : Option String
  doi : Option String
deriving DecidableEq

/-- All-absent keyword arguments. -/
def noKwargs : CitationKwargs :=
  { source_type := none, publication_date := none, publisher := none, doi := none }

/-- `CitationManager._generate_citation_id` computes
`md5(title + url + datetime.now().isoformat())[:8]`; the digest is modelled as
an injective function of its preimage, so the id is the preimage itself. -/
def generate_citation_id (title url nowIso : String) : String := title ++ url ++ nowIso

/-- The citation record built by `_add_citation` for a nonempty title: an empty
url is replaced by the sentinel before the id is generated, `date_accessed` is
the capture date, and `source_type` defaults to `web`. -/
def mkCitation (title url : String) (authors : List String) (kw : CitationKwargs)
    (nowIso nowDate : String) : CitationData :=
  let url2 := if url = "" then "No URL provided" else url
  { title := title
    authors := authors
    url := url2
    date_accessed := nowDate
    citation_id := generate_citation_id title url2 nowIso
    source_type := kw.source_type.getD "web"
    publication_date := kw.publication_date
    publisher := kw.publisher
    doi := kw.doi }

/-- The mutable state of one `CitationManager` instance: the citation dict and
the usage-counter dict, both insertion ordered. -/
structure CitationStore where
  citations : List (String × CitationData)
  usage : List (String × Nat)
deriving DecidableEq

/-- The empty store a fresh `CitationManager` starts with. -/
def emptyCitationStore : CitationStore := { citations := [], usage := [] }

/-- `CitationManager._add_citation`: rejects an empty title, otherwise stores
the new record under its generated id and reports the id.  The capture time is
passed in as its ISO form and its date form. -/
def add_citation (st : CitationStore) (title url : String) (authors : List String)
    (kw : CitationKwargs) (nowIso nowDate : String) : CitationStore × String :=
  if title = "" then (st, "Error: Title is required for citations")
  else
    let c := mkCitation title url authors kw nowIso nowDate
    ({ st with citations := pyDictInsert c.citation_id c st.citations },
      "Citation added successfully with ID: " ++ c.citation_id)

/-- `CitationManager._format_citation`: dispatches on the (uppercased) style;
an unknown id produces a not-found message that appends the repr of the list
of all stored ids. -/
def format_citation (st : CitationStore) (citation_id style : String) : String :=
  if citation_id = "" then "Error: Citation ID is required for formatting"
  else
    match pyDictLookup citation_id st.citations with
    | none =>
        "Citation with ID " ++ citation_id ++ " not found. Available IDs: "
          ++ pyReprStrList (st.citations.map Prod.fst)
    | some c =>
        if pyUpper style = "APA" then format_apa c
        else if pyUpper style = "MLA" then format_mla c
        else if pyUpper style = "CHICAGO" then format_chicago c
        else "Unsupported citation style: " ++ style ++ ". Supported styles: APA, MLA, Chicago"

/-- `CitationManager._track_usage`: an unknown id produces a short not-found
message (without the id list); a known id increments its usage counter. -/
def track_usage (st : CitationStore) (citation_id : String) : CitationStore × String :=
  if citation_id = "" then (st, "Error: Citation ID is required for usage tracking")
  else
    match pyDictLookup citation_id st.citations with
    | none => (st, "Citation with ID " ++ citation_id ++ " not found")
    | some _ =>
        let n := (pyDictLookup citation_id st.usage).getD 0 + 1
        ({ st with usage := pyDictInsert citation_id n st.usage },
          "Citation " ++ citation_id ++ " usage tracked. Total uses: " ++ toString n)

/-- `CitationManager._list_citations` (read-only). -/
def list_citations (st : CitationStore) : String :=
  if st.citations.isEmpty then "No citations stored."
  else
    "Stored Citations:\n"
      ++ String.join (st.citations.map (fun p => "- " ++ p.1 ++ ": " ++ p.2.title ++ "\n"))

/-- `CitationManager._generate_bibliography` (read-only). -/
def generate_bibliography (st : CitationStore) (style : String) : String :=
  if st.citations.isEmpty then "No citations available for bibliography."
  else
    "Bibliography (" ++ pyUpper style ++ " Style):\n\n"
      ++ String.join (st.citations.map (fun p => format_citation st p.1 style ++ "\n\n"))

/-! ## Quality assessor (`src/tools/quality_assessor.py`) -/

/-- Python `min` on two rationals (kernel-computable comparison). -/
def pyMin (a b : ℚ) : ℚ := if a ≤ b then a else b

/-- Python `max` on two rationals (kernel-computable comparison). -/
def pyMax (a b : ℚ) : ℚ := if a ≤ b then b else a

/-- Clamp to `[0, 10]`, the `min(10.0, max(0.0, score))` at the end of every
sub-score. -/
def clamp10 (x : ℚ) : ℚ := pyMin 10 (pyMax 0 x)

/-- The `QualityMetrics` pydantic model, scores as exact rationals. -/
structure QualityMetrics where
  credibility_score : ℚ
  relevance_score : ℚ
  accuracy_score : ℚ
  completeness_score : ℚ
  timeliness_score : ℚ
  overall_score : ℚ
  assessment_notes : List String
  recommendations : List String
deriving DecidableEq

/-- The content-based credibility phrases other than `peer.?reviewed`
(all are regex literals). -/
def credibilityLiterals : List String :=
  ["published in", "journal", "study shows", "research indicates",
   "according to experts", "data suggests"]

/-- The bias phrases that reduce the credibility score. -/
def biasLiterals : List String :=
  ["always", "never", "everyone knows", "obviously", "without a doubt",
   "definitely proves"]

/-- `QualityAssessor._assess_credibility`: base 5.0, a URL-domain bonus, +0.3
per credibility phrase present, −0.2 per bias phrase present, clamped.
`content_type` is accepted but unused, as in the source. -/
def assess_credibility (content source_url content_type : String) : ℚ :=
  let low := lowerL content.data
  let urlLow := pyLower source_url
  let score : ℚ := 5
  let score :=
    if source_url ≠ "" then
      if strContains urlLow ".edu" || strContains urlLow ".gov" || strContains urlLow ".org" then
        score + 2
      else if strContains urlLow ".com" || strContains urlLow ".net" then score + 0.5
      else score
    else score
  let credCount : Nat :=
    (if hasPeerReviewed low then 1 else 0) + countPresent credibilityLiterals low
  let score := score + 0.3 * (credCount : ℚ)
  let score := score - 0.2 * ((countPresent biasLiterals low : ℚ))
  clamp10 score

/-- `QualityAssessor._assess_relevance`: base 5.0, +1.5 for quantitative
keywords, +1.0 when a standalone `20xx` token within the last two years
occurs, word-count tier adjustment, clamped.  `currentYear` stands for
`datetime.now().year`. -/
def assess_relevance (currentYear : Nat) (content : String) : ℚ :=
  let low := lowerL content.data
  let score : ℚ := 5
  let score :=
    if hasDigitPercent low || hasDigitDotDigit low || containsSub "statistics".data low
        || containsSub "data".data low || containsSub "findings".data low then
      score + 1.5
    else score
  let score :=
    if (findYears content).any (fun y => currentYear - 2 ≤ y) then score + 1 else score
  let wc := pyWordCount content
  let score := if wc > 500 then score + 1 else if wc < 100 then score - 1 else score
  clamp10 score

/-- The factual-language phrases of `_assess_accuracy`. -/
def factualLiterals : List String :=
  ["research shows", "data indicates", "study found", "analysis reveals",
   "evidence suggests"]

/-- `QualityAssessor._assess_accuracy`: base 6.0, a tiered bonus from the
total number of citation-pattern matches, +0.3 per factual phrase present,
clamped. -/
def assess_accuracy (content : String) : ℚ :=
  let low := lowerL content.data
  let citation_count : Nat :=
    countBracketNumAux 0 low + countParenYearAux none low
      + countSub "et al.".data low + countSub "according to".data low
      + countSub "source:".data low + countSub "reference:".data low
      + countSub "study by".data low
  let score : ℚ := 6
  let score :=
    if citation_count > 5 then score + 2 else if citation_count > 2 then score + 1 else score
  let score := score + 0.3 * ((countPresent factualLiterals low : ℚ))
  clamp10 score

/-- The structural-section keywords of `_assess_completeness`. -/
def structureLiterals : List String :=
  ["introduction", "conclusion", "methodology", "results", "discussion",
   "background", "summary"]

/-- `QualityAssessor._assess_completeness`: base 5.0, a word-count tier
adjustment, +0.5 per structural keyword present, clamped. -/
def assess_completeness (content : String) : ℚ :=
  let low := lowerL content.data
  let wc := pyWordCount content
  let score : ℚ := 5
  let score :=
    if wc > 1000 then score + 2 else if wc > 500 then score + 1
    else if wc < 100 then score - 2 else score
  let score := score + 0.5 * ((countPresent structureLiterals low : ℚ))
  clamp10 score

/-- The recency-language phrases of `_assess_timeliness`. -/
def recentLiterals : List String :=
  ["recent", "latest", "current", "updated", "new", "this year", "recently", "now"]

/-- `QualityAssessor._assess_timeliness`: base 5.0, an adjustment from the
most recent standalone `20xx` token (none when no such token occurs), +0.2 per
recency phrase present, clamped.  Note that `current_year - most_recent_year`
is computed with Python integers, which can be negative; truncated `Nat`
subtraction agrees with it here because a negative difference and a zero
difference select the same `≤ 1` branch. -/
def assess_timeliness (currentYear : Nat) (content : String) : ℚ :=
  let low := lowerL content.data
  let score : ℚ := 5
  let score :=
    match listMaxNat (findYears content) with
    | none => score
    | some mostRecent =>
        let yearsOld := currentYear - mostRecent
        if yearsOld ≤ 1 then score + 3
        else if yearsOld ≤ 3 then score + 1
        else if yearsOld ≤ 5 then score + 0
        else score - 2
  let score := score + 0.2 * ((countPresent recentLiterals low : ℚ))
  clamp10 score

/-- `QualityAssessor._generate_assessment_notes`.  The combined pattern
`\[\d+\]|\(\d{4}\)` is counted as the sum of the two automata: matches of the
two alternatives can never overlap, since neither delimiter occurs inside a
match of the other. -/
def generate_assessment_notes (content source_url : String) : List String :=
  let low := lowerL content.data
  let wc := pyWordCount content
  let notes := ["Content length: " ++ toString wc ++ " words"]
  let notes := notes ++ (if source_url ≠ "" then ["Source URL: " ++ source_url] else [])
  let notes := notes
    ++ (if hasDigitPercent content.data || hasDigitDotDigit content.data then
          ["Contains quantitative data"]
        else [])
  let notes := notes
    ++ (if containsSub "study".data low || containsSub "research".data low
          || containsSub "analysis".data low then
          ["References research or studies"]
        else [])
  let citation_count := countBracketNumAux 0 content.data + countParenYearAux none content.data
  notes ++ (if citation_count > 0 then
              ["Contains " ++ toString citation_count ++ " citations"]
            else [])

/-- `QualityAssessor._generate_recommendations`: one fixed message per
sub-score below 6.0, else a single positive message. -/
def generate_recommendations (credibility relevance accuracy completeness timeliness : ℚ) :
    List String :=
  let recommendations :=
    (if credibility < 6 then
       ["Seek more credible sources (academic, government, established organizations)"]
     else [])
    ++ (if relevance < 6 then ["Focus on more specific and actionable information"] else [])
    ++ (if accuracy < 6 then ["Add more citations and references to support claims"] else [])
    ++ (if completeness < 6 then ["Expand content with more comprehensive coverage"] else [])
    ++ (if timeliness < 6 then ["Update with more recent information and sources"] else [])
  if recommendations.isEmpty then ["Content meets quality standards"] else recommendations

/-- `QualityAssessor._calculate_quality_metrics`: the five sub-scores and
their arithmetic mean, plus notes and recommendations. -/
def calculate_quality_metrics (currentYear : Nat) (content source_url content_type : String) :
    QualityMetrics :=
  let credibility_score := assess_credibility content source_url content_type
  let relevance_score := assess_relevance currentYear content
  let accuracy_score := assess_accuracy content
  let completeness_score := assess_completeness content
  let timeliness_score := assess_timeliness currentYear content
  let overall_score := (credibility_score + relevance_score + accuracy_score
    + completeness_score + timeliness_score) / 5
  { credibility_score := credibility_score
    relevance_score := relevance_score
    accuracy_score := accuracy_score
    completeness_score := completeness_score
    timeliness_score := timeliness_score
    overall_score := overall_score
    assessment_notes := generate_assessment_notes content source_url
    recommendations := generate_recommendations credibility_score relevance_score
      accuracy_score completeness_score timeliness_score }

/-- The assessment-history dict of one `QualityAssessor` instance. -/
abbrev AssessHistory := List (String × QualityMetrics)

/-- `QualityAssessor._generate_assessment_id` computes
`md5(content[:100] + source_url)[:8]`; the digest is modelled as an injective
function of its preimage, so the id is the preimage itself.  Two contents
agreeing on their first 100 characters get the same id, exactly as in the
source. -/
def generate_assessment_id (content source_url : String) : String :=
  pyTake 100 content ++ source_url

/-- `QualityAssessor._assess_content` restricted to its effect on the history:
compute the metrics and store them under the derived id (Python dict
assignment: an existing id is updated in place). -/
def assess_content (currentYear : Nat) (hist : AssessHistory)
    (content source_url content_type : String) : AssessHistory :=
  pyDictInsert (generate_assessment_id content source_url)
    (calculate_quality_metrics currentYear content source_url content_type) hist

/-- The metrics of the last entry of a nonempty history
(`list(self._assessment_history.values())[-1]`). -/
def lastMetrics (p : String × QualityMetrics) : AssessHistory → QualityMetrics
  | [] => p.2
  | q :: t => lastMetrics q t

/-- The improvement lines `_suggest_improvements` emits for given metrics. -/
def improvementsFor (m : QualityMetrics) (target : ℚ) : List String :=
  (if m.credibility_score < target then ["Improve source credibility"] else [])
  ++ (if m.relevance_score < target then ["Enhance content relevance"] else [])
  ++ (if m.accuracy_score < target then ["Add more supporting evidence"] else [])
  ++ (if m.completeness_score < target then ["Expand content comprehensiveness"] else [])
  ++ (if m.timeliness_score < target then ["Update with recent information"] else [])

/-- The message `_suggest_improvements` builds from one metrics record.
Python renders the float `target_score` into the message; that textual
rendering is passed in as `targetStr`. -/
def improveMsgOf (m : QualityMetrics) (target : ℚ) (targetStr : String) : String :=
  let improvements := improvementsFor m target
  if improvements.isEmpty then
    "Content already meets target quality score of " ++ targetStr ++ "/10"
  else
    "To reach target score of " ++ targetStr ++ "/10:\n"
      ++ String.intercalate "\n" (improvements.map (fun imp => "- " ++ imp))

/-- `QualityAssessor._suggest_improvements`: empty history is rejected,
otherwise the metrics at the last position of the history dict are examined. -/
def suggest_improvements (hist : AssessHistory) (target : ℚ) (targetStr : String) : String :=
  match hist with
  | [] => "No assessments available for improvement suggestions."
  | p :: rest => improveMsgOf (lastMetrics p rest) target targetStr

/-! ## Workflow orchestrator (`src/workflows/research_workflow.py`) -/

/-- `ResearchWorkflow.list_available_formats`. -/
def list_available_formats : List String :=
  ["comprehensive_report", "executive_briefing", "presentation",
   "technical_summary", "policy_brief"]

/-- `ResearchWorkflow.list_target_audiences`. -/
def list_target_audiences : List String :=
  ["academic", "professional", "executive", "technical", "general"]

/-- `ResearchWorkflow.list_depth_levels`. -/
def list_depth_levels : List String :=
  ["overview", "detailed", "comprehensive", "expert"]

/-- The result of `WorkflowUtils.validate_inputs`. -/
structure ValidationResult where
  valid : Bool
  errors : List String
deriving DecidableEq

/-- `WorkflowUtils.validate_inputs`: all four checks run unconditionally and
each violation appends its own message; `valid` is `len(errors) == 0`.  The
messages embed the Python repr of the enumeration lists. -/
def validate_inputs (research_query output_format target_audience depth_level : String) :
    ValidationResult :=
  let e1 :=
    if research_query = "" ∨ (pyStrip research_query).length < 10 then
      ["Research query must be at least 10 characters long"]
    else []
  let e2 :=
    if output_format ∉ list_available_formats then
      ["Invalid output format. Available: " ++ pyReprStrList list_available_formats]
    else []
  let e3 :=
    if target_audience ∉ list_target_audiences then
      ["Invalid target audience. Available: " ++ pyReprStrList list_target_audiences]
    else []
  let e4 :=
    if depth_level ∉ list_depth_levels then
      ["Invalid depth level. Available: " ++ pyReprStrList list_depth_levels]
    else []
  let errors := e1 ++ e2 ++ e3 ++ e4
  { valid := errors.length = 0, errors := errors }

/-- The metadata dict built by `_process_workflow_results`. -/
structure ProjectMetadata where
  project_id : String
  timestamp : String
  research_query : String
  output_format : String
  workflow_duration : String
  agents_used : List String
  tools_used : List String
deriving DecidableEq

/-- The record `execute_research_project` returns: the success shape of
`_process_workflow_results`, its inner-exception shape (`status: error` with
metadata), or the outer-exception shape (`status: failed`). -/
inductive ResultRecord where
  | success (metadata : ProjectMetadata) (final_output : String)
      (summary_file : String) (output_directory : String)
  | procError (error : String) (metadata : ProjectMetadata)
  | failed (error : String)
deriving DecidableEq

/-- The mutable `workflow_state` dict of one `ResearchWorkflow` instance.
Keys that are only added later (`start_time`, `end_time`) are options;
`results` starts as an empty dict, modelled as `none`. -/
structure WorkflowState where
  status : String
  current_task : Option String
  completed_tasks : List String
  results : Option ResultRecord
  errors : List String
  start_time : Option String
  end_time : Option String
deriving DecidableEq

/-- The state a fresh `ResearchWorkflow` starts with. -/
def initial_workflow_state : WorkflowState :=
  { status := "initialized", current_task := none, completed_tasks := []
    results := none, errors := [], start_time := none, end_time := none }

/-- `settings.OUTPUT_DIR` with its default value (no environment override). -/
def OUTPUT_DIR : String := "./outputs"

/-- `ResearchWorkflow._calculate_duration`: the duration string is produced
only when both timestamps have been recorded; `durRepr` models
`str(fromisoformat(end) - fromisoformat(start))`. -/
def calculate_duration (durRepr : String → String → String) (st : WorkflowState) : String :=
  match st.start_time, st.end_time with
  | some s, some e => durRepr s e
  | _, _ => "unknown"

/-- The metadata `_process_workflow_results` assembles before its inner `try`
block.  `md5hex8` models the truncated md5 digest of the query and `dateStr`
the compact current date used for the project id; `ts` is the timestamp
embedded in the summary filename. -/
def build_metadata (md5hex8 : String → String) (durRepr : String → String → String)
    (st : WorkflowState) (research_query output_format dateStr ts : String) :
    ProjectMetadata :=
  { project_id := "research_" ++ dateStr ++ "_" ++ md5hex8 research_query
    timestamp := ts
    research_query := research_query
    output_format := output_format
    workflow_duration := calculate_duration durRepr st
    agents_used := ["research_agent", "analysis_agent", "content_agent"]
    tools_used := ["serper_search", "citation_manager", "quality_assessor", "file_operations"] }

/-- `ResearchWorkflow._process_workflow_results`.  `crewRaw` is the raw text of
the crew result; `writeFails` is `some e` when the summary-file write raises an
exception with text `e` (that exception is caught inside this method).  The
boolean reports whether the summary file was written. -/
def process_workflow_results (md5hex8 : String → String)
    (durRepr : String → String → String) (st : WorkflowState)
    (crewRaw research_query output_format dateStr ts : String)
    (writeFails : Option String) : ResultRecord × Bool :=
  let metadata := build_metadata md5hex8 durRepr st research_query output_format dateStr ts
  match writeFails with
  | some e => (ResultRecord.procError e metadata, false)
  | none =>
      let summary_path := OUTPUT_DIR ++ "/workflow_summary_" ++ ts ++ ".json"
      (ResultRecord.success metadata crewRaw summary_path OUTPUT_DIR, true)

/-- `ResearchWorkflow.execute_research_project`.  The fallible collaborators
are supplied as outcome parameters: `taskBuildFails` for an exception during
`_create_research_tasks` or crew construction, `kickoff` for the crew run
(its `ok` value is the final raw text), and `writeFails` for the summary
write.  `t0` and `t1` are the ISO timestamps taken at the start and after
result processing; the returned boolean reports whether a summary file was
written.  Note the source sets `status = "completed"` and `end_time` after
`_process_workflow_results` returns, even when that method caught an inner
exception, and the metadata duration is computed before `end_time` is set. -/
def execute_research_project (md5hex8 : String → String)
    (durRepr : String → String → String) (taskBuildFails : Option String)
    (kickoff : Except String String) (writeFails : Option String)
    (t0 t1 dateStr ts : String) (st : WorkflowState)
    (research_query output_format target_audience depth_level : String) :
    ResultRecord × WorkflowState × Bool :=
  let st1 := { st with status := "running", start_time := some t0 }
  match taskBuildFails with
  | some e =>
      (ResultRecord.failed e,
        { st1 with status := "error", errors := st1.errors ++ [e] }, false)
  | none =>
      match kickoff with
      | Except.error e =>
          (ResultRecord.failed e,
            { st1 with status := "error", errors := st1.errors ++ [e] }, false)
      | Except.ok raw =>
          let res := process_workflow_results md5hex8 durRepr st1 raw research_query
            output_format dateStr ts writeFails
          let st2 := { st1 with
            status := "completed"
            end_time := some t1
            results := some res.1 }
          (res.1, st2, res.2)

/-! ## Shared lemmas -/

/-- Every clamped score lies in `[0, 10]`. -/
theorem clamp10_bounds (x : ℚ) : 0 ≤ clamp10 x ∧ clamp10 x ≤ 10 := by
  unfold clamp10 pyMin pyMax
  split_ifs <;> constructor <;> linarith

/-- Appending an empty string is the identity. -/
theorem string_append_empty (s : String) : s ++ "" = s := by simp

/-- In-place dict update under a different key does not change a lookup. -/
theorem pyDictLookup_map_update_of_ne {α : Type} (k id : String) (v : α) (h : k ≠ id) :
    ∀ m : List (String × α),
      pyDictLookup id (m.map (fun p => if p.1 = k then (k, v) else p))
        = pyDictLookup id m
  | [] => rfl
  | p :: t => by
      have ih := pyDictLookup_map_update_of_ne k id v h t
      by_cases hp : p.1 = k
      · simp [pyDictLookup, hp, h, ih]
      · by_cases hid : p.1 = id
        · simp [pyDictLookup, hp, hid, Ne.symm h]
        · simp [pyDictLookup, hp, hid, ih]

/-- Appending a fresh binding under a different key does not change a lookup. -/
theorem pyDictLookup_append_single_of_ne {α : Type} (k id : String) (v : α) (h : k ≠ id) :
    ∀ m : List (String × α),
      pyDictLookup id (m ++ [(k, v)]) = pyDictLookup id m
  | [] => by simp [pyDictLookup, h]
  | p :: t => by
      by_cases hid : p.1 = id
      · simp [pyDictLookup, hid]
      · simp [pyDictLookup, hid, pyDictLookup_append_single_of_ne k id v h t]

/-- Dict assignment under a different key does not change a lookup. -/
theorem pyDictLookup_insert_of_ne {α : Type} (k id : String) (v : α)
    (m : List (String × α)) (h : k ≠ id) :
    pyDictLookup id (pyDictInsert k v m) = pyDictLookup id m := by
  unfold pyDictInsert
  split
  · exact pyDictLookup_map_update_of_ne k id v h m
  · exact pyDictLookup_append_single_of_ne k id v h m

/-! ## C3 -/

/-- C3: for every non-empty content string (and any source URL and content
type), each of the five sub-scores of the metrics produced by the assess
operation lies in `[0, 10]`, and the overall score is exactly the arithmetic
mean of the five returned sub-scores. -/
theorem C3_subscores_clamped_overall_is_mean (currentYear : Nat)
    (content source_url content_type : String) (hne : content ≠ "") :
    (0 ≤ (calculate_quality_metrics currentYear content source_url content_type).credibility_score
      ∧ (calculate_quality_metrics currentYear content source_url content_type).credibility_score ≤ 10)
  ∧ (0 ≤ (calculate_quality_metrics currentYear content source_url content_type).relevance_score
      ∧ (calculate_quality_metrics currentYear content source_url content_type).relevance_score ≤ 10)
  ∧ (0 ≤ (calculate_quality_metrics currentYear content source_url content_type).accuracy_score
      ∧ (calculate_quality_metrics currentYear content source_url content_type).accuracy_score ≤ 10)
  ∧ (0 ≤ (calculate_quality_metrics currentYear content source_url content_type).completeness_score
      ∧ (calculate_quality_metrics currentYear content source_url content_type).completeness_score ≤ 10)
  ∧ (0 ≤ (calculate_quality_metrics currentYear content source_url content_type).timeliness_score
      ∧ (calculate_quality_metrics currentYear content source_url content_type).timeliness_score ≤ 10)
  ∧ (calculate_quality_metrics currentYear content source_url content_type).overall_score
      = ((calculate_quality_metrics currentYear content source_url content_type).credibility_score
        + (calculate_quality_metrics currentYear content source_url content_type).relevance_score
        + (calculate_quality_metrics currentYear content source_url content_type).accuracy_score
        + (calculate_quality_metrics currentYear content source_url content_type).completeness_score
        + (calculate_quality_metrics currentYear content source_url content_type).timeliness_score) / 5 :=
  ⟨clamp10_bounds _, clamp10_bounds _, clamp10_bounds _, clamp10_bounds _,
   clamp10_bounds _, rfl⟩

/-- Witness for C3 at a concrete non-empty content string. -/
theorem C3_witness :
    ("data 2025" : String) ≠ ""
  ∧ ((0 ≤ (calculate_quality_metrics 2025 "data 2025" "" "web").credibility_score
      ∧ (calculate_quality_metrics 2025 "data 2025" "" "web").credibility_score ≤ 10)
  ∧ (0 ≤ (calculate_quality_metrics 2025 "data 2025" "" "web").relevance_score
      ∧ (calculate_quality_metrics 2025 "data 2025" "" "web").relevance_score ≤ 10)
  ∧ (0 ≤ (calculate_quality_metrics 2025 "data 2025" "" "web").accuracy_score
      ∧ (calculate_quality_metrics 2025 "data 2025" "" "web").accuracy_score ≤ 10)
  ∧ (0 ≤ (calculate_quality_metrics 2025 "data 2025" "" "web").completeness_score
      ∧ (calculate_quality_metrics 2025 "data 2025" "" "web").completeness_score ≤ 10)
  ∧ (0 ≤ (calculate_quality_metrics 2025 "data 2025" "" "web").timeliness_score
      ∧ (calculate_quality_metrics 2025 "data 2025" "" "web").timeliness_score ≤ 10)
  ∧ (calculate_quality_metrics 2025 "data 2025" "" "web").overall_score
      = ((calculate_quality_metrics 2025 "data 2025" "" "web").credibility_score
        + (calculate_quality_metrics 2025 "data 2025" "" "web").relevance_score
        + (calculate_quality_metrics 2025 "data 2025" "" "web").accuracy_score
        + (calculate_quality_metrics 2025 "data 2025" "" "web").completeness_score
        + (calculate_quality_metrics 2025 "data 2025" "" "web").timeliness_score) / 5) :=
  ⟨by decide, C3_subscores_clamped_overall_is_mean 2025 "data 2025" "" "web" (by decide)⟩

/-! ## C2 -/

/-- C2: `validate_inputs` returns `valid = true` with an empty error list
exactly when the stripped query has at least 10 characters and the format,
audience and depth are members of their fixed enumerations (5 formats, 5
audiences, 4 depths); otherwise each individual violation contributes exactly
one entry to the error list, with no short-circuiting. -/
theorem C2_validate_inputs (q f a d : String) :
    (((validate_inputs q f a d).valid = true ∧ (validate_inputs q f a d).errors = []) ↔
      (10 ≤ (pyStrip q).length ∧ f ∈ list_available_formats ∧ a ∈ list_target_audiences
        ∧ d ∈ list_depth_levels))
  ∧ (validate_inputs q f a d).errors.length
      = ((if (pyStrip q).length < 10 then 1 else 0)
        + (if f ∈ list_available_formats then 0 else 1)
        + (if a ∈ list_target_audiences then 0 else 1)
        + (if d ∈ list_depth_levels then 0 else 1))
  ∧ list_available_formats.length = 5 ∧ list_target_audiences.length = 5
  ∧ list_depth_levels.length = 4 := by
  refine ⟨?_, ?_, rfl, rfl, rfl⟩ <;>
    (by_cases h1 : (pyStrip q).length < 10
     · by_cases h2 : f ∈ list_available_formats <;>
        by_cases h3 : a ∈ list_target_audiences <;>
        by_cases h4 : d ∈ list_depth_levels <;>
        simp [validate_inputs, h1, h2, h3, h4] <;> omega
     · have hne : ¬ q = "" := fun he => h1 (by rw [he]; decide)
       by_cases h2 : f ∈ list_available_formats <;>
        by_cases h3 : a ∈ list_target_audiences <;>
        by_cases h4 : d ∈ list_depth_levels <;>
        simp [validate_inputs, h1, hne, h2, h3, h4] <;> omega)

/-! ## C4 -/

/-- C4: a citation added with an empty url stores the sentinel text
`No URL provided` as its url; formatting a citation whose url is the sentinel
never emits the sentinel in the URL position in any of the three styles (the
URL clause of each formatter is empty, so the output equals the url-free base
text); and the APA formatting of `add("T", "http://x.edu")` contains
`Retrieved from http://x.edu` and does not contain the sentinel.  The ambient
capture date of the concrete example is instantiated to 2025-10-12. -/
theorem C4_sentinel_url (st : CitationStore) (title : String) (authors : List String)
    (kw : CitationKwargs) (nowIso nowDate : String) (htitle : title ≠ "")
    (c : CitationData) (hurl : c.url = "No URL provided") :
    ((mkCitation title "" authors kw nowIso nowDate).url = "No URL provided"
      ∧ (add_citation st title "" authors kw nowIso nowDate).1.citations
          = pyDictInsert (mkCitation title "" authors kw nowIso nowDate).citation_id
              (mkCitation title "" authors kw nowIso nowDate) st.citations)
  ∧ (apaUrlPart c = "" ∧ format_apa c = apaBase c
      ∧ mlaUrlPart c = "" ∧ format_mla c = mlaBase c
      ∧ chicagoUrlPart c = "" ∧ format_chicago c = chicagoBase c)
  ∧ strContains (format_apa (mkCitation "T" "http://x.edu" [] noKwargs
        "2025-10-12T00:00:00" "2025-10-12")) "Retrieved from http://x.edu" = true
  ∧ strContains (format_apa (mkCitation "T" "http://x.edu" [] noKwargs
        "2025-10-12T00:00:00" "2025-10-12")) "No URL provided" = false := by
  refine ⟨⟨by simp [mkCitation], by simp [add_citation, htitle]⟩,
    ⟨?_, ?_, ?_, ?_, ?_, ?_⟩, by decide, by decide⟩ <;>
    simp [apaUrlPart, mlaUrlPart, chicagoUrlPart, format_apa, format_mla,
      format_chicago, hurl]

/-- Witness for C4 at concrete inputs. -/
theorem C4_sentinel_url_witness :
    ((("T2" : String) ≠ "")
      ∧ (mkCitation "T2" "" ["A"] noKwargs "I" "D").url = "No URL provided")
  ∧ ((mkCitation "T2" "" ["A"] noKwargs "I" "D").url = "No URL provided"
      ∧ format_mla (mkCitation "T2" "" ["A"] noKwargs "I" "D")
          = mlaBase (mkCitation "T2" "" ["A"] noKwargs "I" "D")) :=
  ⟨⟨by decide,
    (C4_sentinel_url emptyCitationStore "T2" ["A"] noKwargs "I" "D" (by decide)
      (mkCitation "T2" "" ["A"] noKwargs "I" "D") (by decide)).1.1⟩,
   ⟨by decide,
    (C4_sentinel_url emptyCitationStore "T2" ["A"] noKwargs "I" "D" (by decide)
      (mkCitation "T2" "" ["A"] noKwargs "I" "D") (by decide)).2.1.2.2.2.1⟩⟩

/-! ## C5 -/

/-- C5: APA formatting renders the author list as a single author verbatim,
two authors joined by an ampersand, three or more with all but the last
comma-joined followed by an ampersand and the last, and `Unknown Author` when
the list is empty; the date shown is `publication_date` when present,
otherwise `date_accessed`.  Presence is the source's Python truthiness test
(`citation.publication_date or citation.date_accessed`): a `None` or empty
publication date falls back to the access date. -/
theorem C5_apa_author_and_date_rules (c : CitationData) :
    format_apa c = apaAuthors c.authors ++ ". ("
        ++ pyOrOpt c.publication_date c.date_accessed ++ "). " ++ c.title ++ ". "
        ++ (if pyTruthy c.publisher then c.publisher.getD "" ++ ". " else "")
        ++ apaUrlPart c
  ∧ apaAuthors [] = "Unknown Author"
  ∧ (∀ a : String, apaAuthors [a] = a)
  ∧ (∀ a b : String, apaAuthors [a, b] = a ++ " & " ++ b)
  ∧ (∀ (a b c3 : String) (t : List String),
      apaAuthors (a :: b :: c3 :: t)
        = String.intercalate ", " ((a :: b :: c3 :: t).dropLast) ++ ", & "
          ++ lastStr "" (a :: b :: c3 :: t))
  ∧ (∀ (pd : Option String) (da : String), pyTruthy pd = true → pyOrOpt pd da = pd.getD "")
  ∧ (∀ (pd : Option String) (da : String), pyTruthy pd = false → pyOrOpt pd da = da) := by
  refine ⟨rfl, rfl, fun a => rfl, fun a b => rfl, fun a b c3 t => rfl, ?_, ?_⟩
  · intro pd da h
    cases pd with
    | none => simp [pyTruthy] at h
    | some s =>
        have h2 : s ≠ "" := by simpa [pyTruthy] using h
        simp [pyOrOpt, h2]
  · intro pd da h
    cases pd with
    | none => rfl
    | some s =>
        have h2 : s = "" := by simpa [pyTruthy] using h
        simp [pyOrOpt, h2]

/-- Witness for C5 at a concrete citation and concrete optional dates. -/
theorem C5_apa_author_and_date_rules_witness :
    (pyTruthy (some "2001") = true ∧ pyOrOpt (some "2001") "2025-10-12" = (some "2001").getD "")
  ∧ (pyTruthy (none : Option String) = false ∧ pyOrOpt (none : Option String) "2025-10-12" = "2025-10-12") :=
  ⟨⟨by decide,
    (C5_apa_author_and_date_rules
      (mkCitation "T" "u" ["A"] noKwargs "I" "D")).2.2.2.2.2.1 (some "2001") "2025-10-12" (by decide)⟩,
   ⟨by decide,
    (C5_apa_author_and_date_rules
      (mkCitation "T" "u" ["A"] noKwargs "I" "D")).2.2.2.2.2.2 none "2025-10-12" (by decide)⟩⟩

/-! ## C6 -/

/-- C6 counterexample: with one citation stored (id `Tuiso` in the md5-preimage
model), tracking usage of the unknown id `zzz` fails with a message that does
not list the stored ids — the stored id does not even occur in the message —
while formatting the same unknown id does list them.  This refutes the claim
that every operation on an unknown id reports the full id set. -/
theorem C6_counterexample :
    (track_usage (add_citation emptyCitationStore "T" "u" [] noKwargs "iso" "d").1 "zzz").2
      = "Citation with ID zzz not found"
  ∧ strContains
      (track_usage (add_citation emptyCitationStore "T" "u" [] noKwargs "iso" "d").1 "zzz").2
      "Tuiso" = false
  ∧ format_citation (add_citation emptyCitationStore "T" "u" [] noKwargs "iso" "d").1 "zzz" "APA"
      = "Citation with ID zzz not found. Available IDs: " ++ pyReprStrList ["Tuiso"] := by
  refine ⟨by decide, by decide, by decide⟩

/-- C6 amended: formatting an unknown, nonempty id fails with a message that
lists the full set of stored citation ids; usage tracking of an unknown,
nonempty id fails with a plain not-found message that does not carry the id
list, and leaves the store unchanged. -/
theorem C6_not_found_messages (st : CitationStore) (cid style : String) (hne : cid ≠ "")
    (hmiss : pyDictLookup cid st.citations = none) :
    format_citation st cid style
      = "Citation with ID " ++ cid ++ " not found. Available IDs: "
        ++ pyReprStrList (st.citations.map Prod.fst)
  ∧ (track_usage st cid).2 = "Citation with ID " ++ cid ++ " not found"
  ∧ (track_usage st cid).1 = st := by
  refine ⟨?_, ?_, ?_⟩ <;> simp [format_citation, track_usage, hne, hmiss]

/-- Witness for the amended C6 at a concrete store and unknown id. -/
theorem C6_not_found_messages_witness :
    format_citation (add_citation emptyCitationStore "T" "u" [] noKwargs "iso" "d").1 "qq" "MLA"
      = "Citation with ID qq not found. Available IDs: "
        ++ pyReprStrList ((add_citation emptyCitationStore "T" "u" [] noKwargs "iso" "d").1.citations.map Prod.fst)
  ∧ (track_usage (add_citation emptyCitationStore "T" "u" [] noKwargs "iso" "d").1 "qq").2
      = "Citation with ID qq not found"
  ∧ (track_usage (add_citation emptyCitationStore "T" "u" [] noKwargs "iso" "d").1 "qq").1
      = (add_citation emptyCitationStore "T" "u" [] noKwargs "iso" "d").1 :=
  C6_not_found_messages (add_citation emptyCitationStore "T" "u" [] noKwargs "iso" "d").1
    "qq" "MLA" (by decide) (by decide)

/-! ## C7 -/

/-- C7 counterexample: assessing `aaaa`, then `data 2025`, then `aaaa` again
(all with empty source URL, current year 2025) re-stores the `aaaa` assessment
in place at its original first position, because Python dict assignment keeps
the position of an existing key.  The most recently stored assessment is thus
the one for `aaaa`, yet `improve` examines the last history position and
reports the improvement list of the `data 2025` assessment, which differs.
This refutes the claim that `improve` always lists the dimensions of the most
recently stored assessment. -/
theorem C7_counterexample :
    pyDictLookup (generate_assessment_id "aaaa" "")
      (assess_content 2025 (assess_content 2025
        (assess_content 2025 [] "aaaa" "" "web") "data 2025" "" "web") "aaaa" "" "web")
      = some (calculate_quality_metrics 2025 "aaaa" "" "web")
  ∧ suggest_improvements (assess_content 2025 (assess_content 2025
        (assess_content 2025 [] "aaaa" "" "web") "data 2025" "" "web") "aaaa" "" "web") 5 "5.0"
      = improveMsgOf (calculate_quality_metrics 2025 "data 2025" "" "web") 5 "5.0"
  ∧ suggest_improvements (assess_content 2025 (assess_content 2025
        (assess_content 2025 [] "aaaa" "" "web") "data 2025" "" "web") "aaaa" "" "web") 5 "5.0"
      ≠ improveMsgOf (calculate_quality_metrics 2025 "aaaa" "" "web") 5 "5.0" := by
  refine ⟨?_, ?_, ?_⟩ <;> with_unfolding_all decide

/-- C7 amended: `improve` lists exactly those dimensions whose sub-score falls
below the target in the assessment stored at the last position of the
insertion-ordered history — the most recently stored assessment except when a
later call re-assessed an id that was already present, which updates the entry
in place at its earlier position — and reports that the target is already met
when no dimension falls below it. -/
theorem C7_improve_uses_last_position (p : String × QualityMetrics)
    (rest : AssessHistory) (target : ℚ) (ts : String) :
    suggest_improvements (p :: rest) target ts = improveMsgOf (lastMetrics p rest) target ts
  ∧ (∀ m : QualityMetrics,
      ("Improve source credibility" ∈ improvementsFor m target ↔ m.credibility_score < target)
      ∧ ("Enhance content relevance" ∈ improvementsFor m target ↔ m.relevance_score < target)
      ∧ ("Add more supporting evidence" ∈ improvementsFor m target ↔ m.accuracy_score < target)
      ∧ ("Expand content comprehensiveness" ∈ improvementsFor m target
          ↔ m.completeness_score < target)
      ∧ ("Update with recent information" ∈ improvementsFor m target
          ↔ m.timeliness_score < target))
  ∧ (improvementsFor (lastMetrics p rest) target = [] →
      suggest_improvements (p :: rest) target ts
        = "Content already meets target quality score of " ++ ts ++ "/10") := by
  refine ⟨rfl, ?_, ?_⟩
  · intro m
    unfold improvementsFor
    refine ⟨?_, ?_, ?_, ?_, ?_⟩ <;> (split_ifs <;> simp_all)
  · intro h
    simp [suggest_improvements, improveMsgOf, h]

/-- Witness for the amended C7 at a concrete history and target. -/
theorem C7_improve_uses_last_position_witness :
    improvementsFor (calculate_quality_metrics 2025 "aaaa" "" "web") 0 = []
  ∧ suggest_improvements [("k", calculate_quality_metrics 2025 "aaaa" "" "web")] 0 "0.0"
      = "Content already meets target quality score of " ++ "0.0" ++ "/10" :=
  ⟨by with_unfolding_all decide,
   (C7_improve_uses_last_position ("k", calculate_quality_metrics 2025 "aaaa" "" "web")
      [] 0 "0.0").2.2 (by with_unfolding_all decide)⟩

/-! ## C8 -/

/-- A word run that is exactly four digits, read as a year.  Used only by the
claim-side timeliness formula, which speaks of arbitrary 4-digit year tokens. -/
def fourDigitYearOfRun : List Char → Option Nat
  | [a, b, c, d] =>
    if a.isDigit && b.isDigit && c.isDigit && d.isDigit then
      some (1000 * digitVal a + 100 * digitVal b + 10 * digitVal c + digitVal d)
    else none
  | _ => none

/-- Total number of occurrences of the given patterns, each occurrence counted
separately.  Used only by the claim-side timeliness formula. -/
def countOccurrences (pats : List String) (low : List Char) : Nat :=
  (pats.map (fun p => countSub p.data low)).sum

/-- The timeliness formula as the specification sentence states it, for
comparison with the source function `assess_timeliness`: base 5.0, adjusted by
the most recent 4-digit year token found in the content (any four digits, not
only `20xx`), and +0.2 per occurrence among the recency-language phrases (every
occurrence counted, not only one per phrase), clamped to `[0, 10]`. -/
def timeliness_claim (currentYear : Nat) (content : String) : ℚ :=
  let low := lowerL content.data
  let score : ℚ := 5
  let score :=
    match listMaxNat ((wordRuns [] content.data).filterMap fourDigitYearOfRun) with
    | none => score
    | some mostRecent =>
        let yearsOld := currentYear - mostRecent
        if yearsOld ≤ 1 then score + 3
        else if yearsOld ≤ 3 then score + 1
        else if yearsOld ≤ 5 then score + 0
        else score - 2
  let score := score + 0.2 * ((countOccurrences recentLiterals low : ℚ))
  clamp10 score

/-- C8 counterexample: on the content `In 1995 the recent results were recent`
with current year 2025, the source scores 5.2 (the year 1995 is not matched by
the `20\d{2}` pattern, and the phrase `recent` counts once although it occurs
twice), while the claimed formula gives 3.4 (the 30-year-old year token yields
−2.0 and the two occurrences yield +0.4). -/
theorem C8_counterexample :
    assess_timeliness 2025 "In 1995 the recent results were recent" = 26/5
  ∧ timeliness_claim 2025 "In 1995 the recent results were recent" = 17/5
  ∧ assess_timeliness 2025 "In 1995 the recent results were recent"
      ≠ timeliness_claim 2025 "In 1995 the recent results were recent" := by
  refine ⟨?_, ?_, ?_⟩ <;> with_unfolding_all decide

/-- C8 amended: the timeliness sub-score is the clamp to `[0, 10]` of base 5.0
plus the adjustment derived from the most recent standalone `20xx` year token
(+3.0 if at most 1 year old, +1.0 if at most 3, +0.0 if at most 5, −2.0 if
older, no adjustment when no such token occurs) plus 0.2 per distinct
recency-language phrase that occurs in the content, each phrase counted at
most once. -/
theorem C8_timeliness_formula (currentYear : Nat) (content : String) :
    assess_timeliness currentYear content
      = clamp10 (5
          + (match listMaxNat (findYears content) with
             | none => (0 : ℚ)
             | some mostRecent =>
                 if currentYear - mostRecent ≤ 1 then 3
                 else if currentYear - mostRecent ≤ 3 then 1
                 else if currentYear - mostRecent ≤ 5 then 0
                 else -2)
          + 0.2 * ((countPresent recentLiterals (lowerL content.data) : ℚ))) := by
  unfold assess_timeliness
  cases h : listMaxNat (findYears content) with
  | none =>
      simp only [h]
      congr 1
      ring
  | some mostRecent =>
      simp only [h]
      split_ifs <;> congr 1 <;> ring

/-! ## C9 -/

/-- The operations dispatched by `CitationManager._run`.  The capture time of
an `add` is part of the operation. -/
inductive CitOp where
  | add (title url : String) (authors : List String) (kw : CitationKwargs)
      (nowIso nowDate : String)
  | format (citation_id style : String)
  | listAll
  | bibliography (style : String)
  | usage (citation_id : String)

/-- Effect of one citation-manager operation on the store: only `add` touches
the citation dict and only `usage` touches the usage dict; `format`, `list`
and `bibliography` are read-only. -/
def citStep (st : CitationStore) : CitOp → CitationStore
  | CitOp.add title url authors kw nowIso nowDate =>
      (add_citation st title url authors kw nowIso nowDate).1
  | CitOp.usage citation_id => (track_usage st citation_id).1
  | _ => st

/-- The operations dispatched by `QualityAssessor._run`. -/
inductive QualOp where
  | assess (content source_url content_type : String)
  | history
  | benchmark (domain : String)
  | improve (target : ℚ) (targetStr : String)

/-- Effect of one quality-assessor operation on the history: only `assess`
with nonempty content stores anything; `history`, `benchmark` and `improve`
are read-only. -/
def qualStep (currentYear : Nat) (h : AssessHistory) : QualOp → AssessHistory
  | QualOp.assess content source_url content_type =>
      if content = "" then h
      else assess_content currentYear h content source_url content_type
  | _ => h

/-- The id under which an `add` operation stores its record (the sentinel url
substitution happens before the id is generated, as in the source). -/
def addOpId (title url nowIso : String) : String :=
  generate_citation_id title (if url = "" then "No URL provided" else url) nowIso

set_option maxRecDepth 8000 in
/-- C9 counterexample: two different contents that agree on their first 100
characters (and share an empty source URL) receive the same assessment id, so
assessing the second one overwrites the stored `QualityMetrics` of the first
with different metrics — the stored entry no longer equals the record as
created.  This refutes the claim that no later operation edits a stored
entry. -/
theorem C9_counterexample :
    pyDictLookup (generate_assessment_id (String.mk (List.replicate 100 'a') ++ "b") "")
        (assess_content 2025 [] (String.mk (List.replicate 100 'a') ++ "b") "" "web")
      = some (calculate_quality_metrics 2025 (String.mk (List.replicate 100 'a') ++ "b") "" "web")
  ∧ pyDictLookup (generate_assessment_id (String.mk (List.replicate 100 'a') ++ "b") "")
        (assess_content 2025
          (assess_content 2025 [] (String.mk (List.replicate 100 'a') ++ "b") "" "web")
          (String.mk (List.replicate 100 'a') ++ "c data 2025") "" "web")
      = some (calculate_quality_metrics 2025
          (String.mk (List.replicate 100 'a') ++ "c data 2025") "" "web")
  ∧ calculate_quality_metrics 2025 (String.mk (List.replicate 100 'a') ++ "c data 2025") "" "web"
      ≠ calculate_quality_metrics 2025 (String.mk (List.replicate 100 'a') ++ "b") "" "web" := by
  refine ⟨?_, ?_, ?_⟩ <;> with_unfolding_all decide

/-- C9 amended: a stored `CitationRecord` is left unchanged by every later
operation whose `add`s all generate ids different from its id (ids coincide
only when title, stored url and capture timestamp hash alike), and a stored
`QualityMetrics` entry is left unchanged by every later operation whose
`assess`es all have a different (first 100 content characters, source URL)
preimage; an `assess` with the same preimage overwrites the entry in place. -/
theorem C9_entries_immutable (currentYear : Nat) :
    (∀ (st : CitationStore) (ops : List CitOp) (id : String) (v : CitationData),
        pyDictLookup id st.citations = some v →
        (∀ title url authors kw nowIso nowDate,
            CitOp.add title url authors kw nowIso nowDate ∈ ops →
            addOpId title url nowIso ≠ id) →
        pyDictLookup id ((ops.foldl citStep st).citations) = some v)
  ∧ (∀ (hist : AssessHistory) (ops : List QualOp) (id : String) (m : QualityMetrics),
        pyDictLookup id hist = some m →
        (∀ content source_url content_type,
            QualOp.assess content source_url content_type ∈ ops →
            generate_assessment_id content source_url ≠ id) →
        pyDictLookup id (ops.foldl (qualStep currentYear) hist) = some m) := by
  constructor
  · intro st ops id v
    induction ops generalizing st with
    | nil => intro hv _; exact hv
    | cons op rest ih =>
        intro hv hadd
        rw [List.foldl_cons]
        refine ih (citStep st op) ?_ ?_
        · cases op with
          | add title url authors kw nowIso nowDate =>
              have hne : addOpId title url nowIso ≠ id :=
                hadd title url authors kw nowIso nowDate (List.mem_cons_self _ _)
              by_cases ht : title = ""
              · simpa [citStep, add_citation, ht] using hv
              · have hstep :
                    (citStep st (CitOp.add title url authors kw nowIso nowDate)).citations
                      = pyDictInsert (addOpId title url nowIso)
                          (mkCitation title url authors kw nowIso nowDate) st.citations := by
                  simp [citStep, add_citation, ht, addOpId, mkCitation, generate_citation_id]
                rw [hstep, pyDictLookup_insert_of_ne _ _ _ _ hne]
                exact hv
          | format a b => exact hv
          | listAll => exact hv
          | bibliography s => exact hv
          | usage cid =>
              have hstep : (track_usage st cid).1.citations = st.citations := by
                unfold track_usage
                split
                · rfl
                · split <;> rfl
              show pyDictLookup id (track_usage st cid).1.citations = some v
              rw [hstep]
              exact hv
        · intro t u a kw ni nd hmem
          exact hadd t u a kw ni nd (List.mem_cons_of_mem _ hmem)
  · intro hist ops id m
    induction ops generalizing hist with
    | nil => intro hv _; exact hv
    | cons op rest ih =>
        intro hv hass
        rw [List.foldl_cons]
        refine ih (qualStep currentYear hist op) ?_ ?_
        · cases op with
          | assess content source_url content_type =>
              have hne := hass content source_url content_type (List.mem_cons_self _ _)
              by_cases hc : content = ""
              · simpa [qualStep, hc] using hv
              · have hstep : qualStep currentYear hist
                      (QualOp.assess content source_url content_type)
                    = pyDictInsert (generate_assessment_id content source_url)
                        (calculate_quality_metrics currentYear content source_url content_type)
                        hist := by
                  simp [qualStep, hc, assess_content]
                rw [hstep, pyDictLookup_insert_of_ne _ _ _ _ hne]
                exact hv
          | history => exact hv
          | benchmark d => exact hv
          | improve t ts => exact hv
        · intro c u ct hmem
          exact hass c u ct (List.mem_cons_of_mem _ hmem)

/-- Witness for the amended C9 at concrete stores and operation lists. -/
theorem C9_entries_immutable_witness :
    pyDictLookup "Tuiso"
      (([CitOp.usage "Tuiso", CitOp.format "Tuiso" "APA",
         CitOp.add "X" "Y" [] noKwargs "I2" "D2", CitOp.bibliography "MLA",
         CitOp.listAll].foldl citStep
          (add_citation emptyCitationStore "T" "u" [] noKwargs "iso" "d").1).citations)
      = some (mkCitation "T" "u" [] noKwargs "iso" "d")
  ∧ pyDictLookup "id1"
      ([QualOp.assess "zz" "" "web", QualOp.history].foldl (qualStep 2025)
        [("id1", calculate_quality_metrics 2025 "aaaa" "" "web")])
      = some (calculate_quality_metrics 2025 "aaaa" "" "web") := by
  constructor
  · refine (C9_entries_immutable 2025).1
      (add_citation emptyCitationStore "T" "u" [] noKwargs "iso" "d").1
      [CitOp.usage "Tuiso", CitOp.format "Tuiso" "APA",
       CitOp.add "X" "Y" [] noKwargs "I2" "D2", CitOp.bibliography "MLA", CitOp.listAll]
      "Tuiso" (mkCitation "T" "u" [] noKwargs "iso" "d") (by with_unfolding_all decide) ?_
    intro t u a kw ni nd hmem
    simp only [List.mem_cons, List.not_mem_nil, or_false] at hmem
    rcases hmem with h | h | h | h | h
    · exact CitOp.noConfusion h
    · exact CitOp.noConfusion h
    · injection h with h1 h2 h3 h4 h5 h6
      subst h1
      subst h2
      subst h5
      decide
    · exact CitOp.noConfusion h
    · exact CitOp.noConfusion h
  · refine (C9_entries_immutable 2025).2
      [("id1", calculate_quality_metrics 2025 "aaaa" "" "web")]
      [QualOp.assess "zz" "" "web", QualOp.history]
      "id1" (calculate_quality_metrics 2025 "aaaa" "" "web") (by with_unfolding_all decide) ?_
    intro c u ct hmem
    simp only [List.mem_cons, List.not_mem_nil, or_false] at hmem
    rcases hmem with h | h
    · injection h with h1 h2 h3
      subst h1
      subst h2
      decide
    · exact QualOp.noConfusion h

/-! ## C1 -/

/-- C1 counterexample: with a stub whose summary-file write raises
`disk full` (task construction and the crew run succeed), the returned record
is the inner `status: error` shape with metadata — not `{status: failed}` —
the workflow state ends as `completed`, not `error`, the error text is not
appended to the error list, and no summary file is written.  The exception is
caught inside `_process_workflow_results`, so the outer handler that the claim
describes never runs. -/
theorem C1_counterexample :
    (execute_research_project (fun s => s) (fun s e => s ++ "/" ++ e) none (Except.ok "out")
        (some "disk full") "T0" "T1" "D" "TS" initial_workflow_state "q" "fmt" "aud" "dep").1
      = ResultRecord.procError "disk full"
          { project_id := "research_D_q", timestamp := "TS", research_query := "q",
            output_format := "fmt", workflow_duration := "unknown",
            agents_used := ["research_agent", "analysis_agent", "content_agent"],
            tools_used := ["serper_search", "citation_manager", "quality_assessor",
              "file_operations"] }
  ∧ (execute_research_project (fun s => s) (fun s e => s ++ "/" ++ e) none (Except.ok "out")
        (some "disk full") "T0" "T1" "D" "TS" initial_workflow_state "q" "fmt" "aud" "dep").1
      ≠ ResultRecord.failed "disk full"
  ∧ (execute_research_project (fun s => s) (fun s e => s ++ "/" ++ e) none (Except.ok "out")
        (some "disk full") "T0" "T1" "D" "TS" initial_workflow_state "q" "fmt" "aud" "dep").2.1.status
      = "completed"
  ∧ (execute_research_project (fun s => s) (fun s e => s ++ "/" ++ e) none (Except.ok "out")
        (some "disk full") "T0" "T1" "D" "TS" initial_workflow_state "q" "fmt" "aud" "dep").2.1.errors
      = ([] : List String)
  ∧ (execute_research_project (fun s => s) (fun s e => s ++ "/" ++ e) none (Except.ok "out")
        (some "disk full") "T0" "T1" "D" "TS" initial_workflow_state "q" "fmt" "aud" "dep").2.2
      = false :=
  ⟨rfl, by decide, rfl, rfl, rfl⟩

/-- C1 amended: an exception during task construction or phase execution is
caught by the outer handler — the state transitions to `error`, the error text
is appended to the error list, the record is exactly `{status: failed, error}`
and no summary file is written.  An exception during result processing or
summary persistence, however, is caught inside `_process_workflow_results`:
no summary file is written, the returned record is `{status: error, error,
metadata}`, and the workflow state still transitions to `completed` with the
record stored in its results. -/
theorem C1_failure_paths (md5hex8 : String → String) (durRepr : String → String → String)
    (taskBuildFails writeFails : Option String) (kickoff : Except String String)
    (t0 t1 dateStr ts : String) (st : WorkflowState) (q f aud dep : String) :
    (∀ e, taskBuildFails = some e →
        execute_research_project md5hex8 durRepr taskBuildFails kickoff writeFails
            t0 t1 dateStr ts st q f aud dep
          = (ResultRecord.failed e,
             { st with
                status := "error"
                start_time := some t0
                errors := st.errors ++ [e] },
             false))
  ∧ (∀ e, taskBuildFails = none → kickoff = Except.error e →
        execute_research_project md5hex8 durRepr taskBuildFails kickoff writeFails
            t0 t1 dateStr ts st q f aud dep
          = (ResultRecord.failed e,
             { st with
                status := "error"
                start_time := some t0
                errors := st.errors ++ [e] },
             false))
  ∧ (∀ raw e, taskBuildFails = none → kickoff = Except.ok raw → writeFails = some e →
        execute_research_project md5hex8 durRepr taskBuildFails kickoff writeFails
            t0 t1 dateStr ts st q f aud dep
          = (ResultRecord.procError e (build_metadata md5hex8 durRepr
                { st with status := "running", start_time := some t0 } q f dateStr ts),
             { st with
                status := "completed"
                start_time := some t0
                end_time := some t1
                results := some (ResultRecord.procError e (build_metadata md5hex8 durRepr
                  { st with status := "running", start_time := some t0 } q f dateStr ts)) },
             false)) := by
  refine ⟨fun e he => ?_, fun e h1 h2 => ?_, fun raw e h1 h2 h3 => ?_⟩ <;> subst_vars <;> rfl

/-- Witness for the amended C1 at concrete stub outcomes. -/
theorem C1_failure_paths_witness :
    execute_research_project (fun s => s) (fun s e => s ++ e) (some "boom")
        (Except.ok "r") none "A" "B" "C" "D" initial_workflow_state "q" "f" "x" "y"
      = (ResultRecord.failed "boom",
         { initial_workflow_state with
            status := "error"
            start_time := some "A"
            errors := initial_workflow_state.errors ++ ["boom"] },
         false)
  ∧ execute_research_project (fun s => s) (fun s e => s ++ e) none
        (Except.ok "r") (some "no space") "A" "B" "C" "D" initial_workflow_state "q" "f" "x" "y"
      = (ResultRecord.procError "no space" (build_metadata (fun s => s) (fun s e => s ++ e)
            { initial_workflow_state with status := "running", start_time := some "A" }
            "q" "f" "C" "D"),
         { initial_workflow_state with
            status := "completed"
            start_time := some "A"
            end_time := some "B"
            results := some (ResultRecord.procError "no space"
              (build_metadata (fun s => s) (fun s e => s ++ e)
                { initial_workflow_state with status := "running", start_time := some "A" }
                "q" "f" "C" "D")) },
         false) :=
  ⟨(C1_failure_paths (fun s => s) (fun s e => s ++ e) (some "boom") none (Except.ok "r")
      "A" "B" "C" "D" initial_workflow_state "q" "f" "x" "y").1 "boom" rfl,
   (C1_failure_paths (fun s => s) (fun s e => s ++ e) none (some "no space") (Except.ok "r")
      "A" "B" "C" "D" initial_workflow_state "q" "f" "x" "y").2.2 "r" "no space" rfl rfl rfl⟩

/-! ## C10 -/

/-- C10 counterexample: the interactive front ends reuse one
`ResearchWorkflow` instance across projects, and `execute_research_project`
never clears `end_time`.  On a second successful run the metadata duration is
computed from the new `start_time` and the stale `end_time` of the previous
run — not `unknown`.  The duration renderer stands for `str(end - start)`,
which never yields the string `unknown`. -/
theorem C10_counterexample :
    (execute_research_project (fun s => s) (fun s e => "dur " ++ s ++ " " ++ e) none
        (Except.ok "r2") none "T2s" "T2e" "D2" "TS2"
        (execute_research_project (fun s => s) (fun s e => "dur " ++ s ++ " " ++ e) none
          (Except.ok "r1") none "T1s" "T1e" "D1" "TS1" initial_workflow_state
          "q" "f" "aud" "dep").2.1
        "q" "f" "aud" "dep").1
      = ResultRecord.success
          { project_id := "research_D2_q", timestamp := "TS2", research_query := "q",
            output_format := "f", workflow_duration := "dur T2s T1e",
            agents_used := ["research_agent", "analysis_agent", "content_agent"],
            tools_used := ["serper_search", "citation_manager", "quality_assessor",
              "file_operations"] }
          "r2" "./outputs/workflow_summary_TS2.json" "./outputs"
  ∧ ("dur T2s T1e" : String) ≠ "unknown" :=
  ⟨rfl, by decide⟩

/-- C10 amended: every call to `execute_research_project` that starts from a
state whose `end_time` is unset — in particular the first execution of a fresh
workflow instance — and returns a success record carries
`workflow_duration = "unknown"` in its metadata, because the duration is
computed while the metadata is built, before `end_time` is recorded. -/
theorem C10_duration_unknown (md5hex8 : String → String)
    (durRepr : String → String → String) (taskBuildFails writeFails : Option String)
    (kickoff : Except String String) (t0 t1 dateStr ts : String) (st : WorkflowState)
    (q f aud dep : String) (hend : st.end_time = none) (md : ProjectMetadata)
    (fo sf od : String)
    (h : (execute_research_project md5hex8 durRepr taskBuildFails kickoff writeFails
        t0 t1 dateStr ts st q f aud dep).1 = ResultRecord.success md fo sf od) :
    md.workflow_duration = "unknown" := by
  cases taskBuildFails with
  | some e => simp [execute_research_project] at h
  | none =>
      cases kickoff with
      | error e => simp [execute_research_project] at h
      | ok raw =>
          cases writeFails with
          | some e => simp [execute_research_project, process_workflow_results] at h
          | none =>
              simp only [execute_research_project, process_workflow_results] at h
              have hmd : md = build_metadata md5hex8 durRepr
                  { st with status := "running", start_time := some t0 } q f dateStr ts := by
                have h2 := (ResultRecord.success.injEq _ _ _ _ _ _ _ _).mp h.symm
                exact h2.1
              rw [hmd]
              simp [build_metadata, calculate_duration, hend]

/-- Witness for the amended C10 at concrete stub outcomes. -/
theorem C10_duration_unknown_witness :
    (build_metadata (fun s => s) (fun s e => s ++ e)
        { initial_workflow_state with status := "running", start_time := some "A" }
        "q" "f" "C" "D").workflow_duration = "unknown" :=
  C10_duration_unknown (fun s => s) (fun s e => s ++ e) none none (Except.ok "r")
    "A" "B" "C" "D" initial_workflow_state "q" "f" "x" "y" rfl
    (build_metadata (fun s => s) (fun s e => s ++ e)
      { initial_workflow_state with status := "running", start_time := some "A" }
      "q" "f" "C" "D")
    "r" "./outputs/workflow_summary_D.json" "./outputs" rfl
